import Mathlib

/-!
Verification of the vault-based coordination and approval-workflow engine of the
`hackhaton0_personal_ai_employe` repository, against its natural-language
specification.

The embedding is shallow: each MCP tool handler (from
`mcp_servers/email-mcp/index.js` and `mcp_servers/social-mcp/index.js`) becomes a
pure Lean function from its inputs and the relevant environment to a result plus
a list of `Effect`s (directory creations, file writes, external actions).  The
`.gitignore` produced by `cloud_deployment/setup_git_sync.sh` is embedded
pattern-for-pattern together with a glob matcher.  The claim-by-move protocol is
modelled from the specification because `vault_sync/claim_by_move.py` is not part
of the repository snapshot.
-/

namespace AIEmployee

/-! ## Character-list string utilities (kernel-friendly, JS-style) -/

/-- Whether the character list `s` starts with the pattern `p`. -/
def listLeads : List Char → List Char → Bool
  | [], _ => true
  | _ :: _, [] => false
  | p :: ps, c :: cs => p == c && listLeads ps cs

/-- Whether the pattern `pat` occurs as a contiguous run inside `s`. -/
def listOccurs (pat : List Char) : List Char → Bool
  | [] => listLeads pat []
  | c :: cs => listLeads pat (c :: cs) || listOccurs pat cs

/-- Whether string `s` starts with `pat`. -/
def strLeads (s pat : String) : Bool := listLeads pat.data s.data

/-- Whether `pat` occurs as a substring of `s`. -/
def strOccurs (s pat : String) : Bool := listOccurs pat.data s.data

/-- Node `path.join` restricted to the forms used by the servers:
join with a single separator. -/
def pathJoin (a b : String) : String := a ++ "/" ++ b

/-- JS `new Date().toISOString().replace(/[:.]/g, '-')` — the timestamp
sanitisation both MCP servers apply before building a draft filename. -/
def sanitizeTs (iso : String) : String :=
  String.mk (iso.data.map (fun c => if c == ':' || c == '.' then '-' else c))

/-! ## Filesystem and effect model

A tool handler's externally visible behaviour is its result value plus the
ordered list of effects it performs: `fs.mkdirSync`, `fs.writeFileSync`, and
actions that leave the machine (SMTP send, browser automation). -/

inductive Effect
  | mkdir (path : String)
  | writeFile (path : String) (content : String)
  | externalAction (description : String)
deriving DecidableEq

/-- A flat file store: later writes shadow earlier ones (`fs.writeFileSync`
overwrites an existing file at the same path). -/
abbrev FS := List (String × String)

def fsWrite (fs : FS) (p c : String) : FS := (p, c) :: fs

def fsRead : FS → String → Option String
  | [], _ => none
  | (q, c) :: rest, p => if q == p then some c else fsRead rest p

def applyEffect (fs : FS) : Effect → FS
  | .mkdir _ => fs
  | .writeFile p c => fsWrite fs p c
  | .externalAction _ => fs

def runEffects (fs : FS) (es : List Effect) : FS := es.foldl applyEffect fs

def isVaultWrite : Effect → Bool
  | .writeFile _ _ => true
  | _ => false

def isExternalAction : Effect → Bool
  | .externalAction _ => true
  | _ => false

/-- An audit record, per the repository, is a write under a `Logs` or `Audit`
location (`/Vault/Logs/YYYY-MM-DD.json` in the handbook, `Audit/` in the Odoo
server). -/
def isAuditWrite : Effect → Bool
  | .writeFile p _ => strOccurs p "Logs" || strOccurs p "Audit"
  | _ => false

/-! ## Email MCP server (`mcp_servers/email-mcp/index.js`) -/

structure EmailAuth where
  user : String
  pass : String
deriving DecidableEq

structure EmailConfig where
  host : String
  port : Nat
  secure : Bool
  auth : EmailAuth
deriving DecidableEq

/-- Lines 24-32: the built-in configuration, credentials taken from the
`EMAIL_USER` / `EMAIL_PASS` environment variables (empty when unset). -/
def defaultEmailConfig (envUser envPass : Option String) : EmailConfig :=
  { host := "smtp.gmail.com"
  , port := 587
  , secure := false
  , auth := { user := envUser.getD "", pass := envPass.getD "" } }

/-- Lines 34-41: when a parseable config file exists at `CONFIG_PATH` it
replaces the whole configuration (environment variables included); otherwise
the defaults stand.  `configFile = none` covers both an absent file and a file
that fails to parse. -/
def loadEmailConfig (envUser envPass : Option String)
    (configFile : Option EmailConfig) : EmailConfig :=
  match configFile with
  | some cfg => cfg
  | none => defaultEmailConfig envUser envPass

structure Transporter where
  host : String
  port : Nat
  secure : Bool
  auth : EmailAuth
deriving DecidableEq

/-- Lines 46-58: `createTransporter` returns `null` when either credential is
empty, otherwise a nodemailer transport over the configured account. -/
def createTransporter (cfg : EmailConfig) : Option Transporter :=
  if cfg.auth.user == "" || cfg.auth.pass == "" then none
  else some ⟨cfg.host, cfg.port, cfg.secure, cfg.auth⟩

structure SendEmailArgs where
  toAddr : String  -- the source field is named `to`, a reserved word in Lean
  subject : String
  body : String
  isHtml : Bool
deriving DecidableEq

inductive SendEmailResult
  | errorNotConfigured
  | sentMail (fromAddr toAddr subject body : String) (isHtml : Bool)
deriving DecidableEq

/-- Lines 147-176: the `send_email` handler.  It builds the transporter if
needed; with no transporter it returns the not-configured error and performs
nothing, otherwise it immediately calls `transporter.sendMail` with the given
recipient, subject and body.  Nothing else is consulted: the handler receives
only `(to, subject, body, isHtml)` and never reads any vault item or approval
state. -/
def send_email (cfg : EmailConfig) (args : SendEmailArgs) : SendEmailResult :=
  match createTransporter cfg with
  | none => SendEmailResult.errorNotConfigured
  | some _ => SendEmailResult.sentMail cfg.auth.user args.toAddr args.subject args.body args.isHtml

/-- Whether the result of `send_email` corresponds to an attempted SMTP send. -/
def isSendAttempt : SendEmailResult → Bool
  | .errorNotConfigured => false
  | .sentMail _ _ _ _ _ => true

/-- Line 21: `process.env.APPROVAL_FOLDER || '../AI_Employee_Vault/Approved'`. -/
def APPROVAL_FOLDER (env : Option String) : String :=
  env.getD "../AI_Employee_Vault/Approved"

structure DraftEmailArgs where
  toAddr : String  -- the source field is named `to`
  subject : String
  body : String
  vaultPath : Option String
deriving DecidableEq

/-- Lines 184-217: the draft file template written by `draft_email`. -/
def emailDraftContent (args : DraftEmailArgs) (now : String) : String :=
  "---\ntype: email_draft\nto: " ++ args.toAddr ++ "\nsubject: " ++ args.subject ++
  "\ncreated: " ++ now ++ "\nstatus: pending_approval\n---\n\n# Email Draft\n\n## To: " ++
  args.toAddr ++ "\n\n## Subject: " ++ args.subject ++ "\n\n## Body:\n\n" ++ args.body ++
  "\n\n---\n\n## Approval Instructions\n\n**To Approve and Send:**\n" ++
  "1. Review the email above\n2. Edit if needed\n3. Move this file to /Approved/ folder\n" ++
  "4. Use send_email tool to send\n\n**To Reject:**\n- Move this file to /Rejected/ folder\n" ++
  "\n---\n*Created by Email MCP Server*\n"

structure DraftOutcome where
  draftPath : String
  effects : List Effect
deriving DecidableEq

/-- Lines 178-231: the `draft_email` handler.  The target folder is
`args.vaultPath || APPROVAL_FOLDER`; the filename is derived from the current
timestamp only; the handler ensures the directory exists and writes the draft
file.  `now` is the ISO timestamp `new Date().toISOString()` at the moment of
the call. -/
def draft_email (envApprovalFolder : Option String) (args : DraftEmailArgs)
    (now : String) : DraftOutcome :=
  let vaultPath := args.vaultPath.getD (APPROVAL_FOLDER envApprovalFolder)
  let timestamp := sanitizeTs now
  let draftFilename := "EMAIL_DRAFT_" ++ timestamp ++ ".md"
  let draftPath := pathJoin vaultPath draftFilename
  { draftPath := draftPath
  , effects := [Effect.mkdir vaultPath,
                Effect.writeFile draftPath (emailDraftContent args now)] }

/-! ## Social MCP server (`mcp_servers/social-mcp/index.js`) -/

/-- Line 20: `process.env.VAULT_PATH || './AI_Employee_Vault'`. -/
def VAULT_PATH (env : Option String) : String := env.getD "./AI_Employee_Vault"

/-- Line 21. -/
def DRAFTS_FOLDER (env : Option String) : String := pathJoin (VAULT_PATH env) "Drafts"

/-- Line 22. -/
def APPROVED_FOLDER (env : Option String) : String := pathJoin (VAULT_PATH env) "Approved"

/-- Line 23: the persistent browser-session directory, placed inside the vault. -/
def SESSIONS_PATH (env : Option String) : String :=
  pathJoin (VAULT_PATH env) ".social_sessions"

structure CreateFacebookPostArgs where
  content : String
  imageUrl : Option String
deriving DecidableEq

/-- Lines 191-221: the Facebook draft template. -/
def facebookDraftContent (args : CreateFacebookPostArgs) (now : String) : String :=
  "---\ntype: facebook_post_draft\nplatform: facebook\ncreated: " ++ now ++
  "\nstatus: pending_approval\n---\n\n# Facebook Post Draft\n\n## Content:\n\n" ++
  args.content ++ "\n\n" ++
  (match args.imageUrl with
   | some u => "\n## Image:\n" ++ u ++ "\n"
   | none => "") ++
  "\n\n---\n\n## Approval Instructions\n\n**To Approve and Post:**\n" ++
  "1. Review the post above\n2. Edit if needed\n3. Move this file to /Approved/ folder\n" ++
  "4. Use post_to_facebook tool to publish\n\n**To Reject:**\n" ++
  "- Move this file to /Rejected/ folder\n\n---\n*Created by Social Media MCP Server*\n"

/-- Lines 186-231: the `create_facebook_post` handler.  Its only effect is a
single `writeFileSync` of the draft file into the Drafts folder. -/
def create_facebook_post (envVault : Option String) (args : CreateFacebookPostArgs)
    (now : String) : DraftOutcome :=
  let draftFilename := "FACEBOOK_DRAFT_" ++ sanitizeTs now ++ ".md"
  let draftPath := pathJoin (DRAFTS_FOLDER envVault) draftFilename
  { draftPath := draftPath
  , effects := [Effect.writeFile draftPath (facebookDraftContent args now)] }

structure CreateTweetArgs where
  content : List Char  -- modelled as a character list so JS substring is List.take
  imageUrl : Option String
deriving DecidableEq

/-- Lines 294-324: the Twitter draft template, receiving the already-truncated
content. -/
def tweetDraftContent (content : List Char) (now : String)
    (imageUrl : Option String) : String :=
  "---\ntype: twitter_post_draft\nplatform: twitter\ncreated: " ++ now ++
  "\nstatus: pending_approval\n---\n\n# Twitter/X Post Draft\n\n## Tweet (" ++
  toString content.length ++ "/280 characters):\n\n" ++ String.mk content ++ "\n\n" ++
  (match imageUrl with
   | some u => "\n## Image:\n" ++ u ++ "\n"
   | none => "") ++
  "\n\n---\n\n## Approval Instructions\n\n**To Approve and Post:**\n" ++
  "1. Review the tweet above\n2. Edit if needed (keep under 280 chars)\n" ++
  "3. Move this file to /Approved/ folder\n4. Use post_to_twitter tool to publish\n\n" ++
  "**To Reject:**\n- Move this file to /Rejected/ folder\n\n---\n" ++
  "*Created by Social Media MCP Server*\n"

structure CreateTweetOutcome where
  storedTweet : List Char
  reportedCount : Nat
  draftPath : String
  effects : List Effect
  isError : Bool
deriving DecidableEq

/-- Lines 288-334: the `create_tweet` handler.  Line 289 is
`args.content.substring(0, 280)` — silent truncation to the first 280
characters; the handler never rejects, writes the draft to the Drafts folder
and reports `content.length` as the character count. -/
def create_tweet (envVault : Option String) (args : CreateTweetArgs)
    (now : String) : CreateTweetOutcome :=
  let content := args.content.take 280
  let draftFilename := "TWITTER_DRAFT_" ++ sanitizeTs now ++ ".md"
  let draftPath := pathJoin (DRAFTS_FOLDER envVault) draftFilename
  { storedTweet := content
  , reportedCount := content.length
  , draftPath := draftPath
  , effects := [Effect.writeFile draftPath (tweetDraftContent content now args.imageUrl)]
  , isError := false }

structure PostToFacebookArgs where
  content : String
  imageUrl : Option String
  headless : Option Bool
deriving DecidableEq

inductive FacebookResult
  | published
  | errorPosting
deriving DecidableEq

/-- Lines 336-385: the `post_to_facebook` handler.  It unconditionally opens
the persistent browser session stored under `SESSIONS_PATH/facebook` and
navigates to facebook.com; when the post box appears it fills it with
`args.content` and clicks Post, otherwise it reports an error.  `postBoxAppears`
models whether the `waitForSelector` call succeeds.  No approval state of any
vault item is consulted before acting. -/
def post_to_facebook (envVault : Option String) (args : PostToFacebookArgs)
    (postBoxAppears : Bool) : FacebookResult × List Effect :=
  let sessionPath := pathJoin (SESSIONS_PATH envVault) "facebook"
  let launchEffects :=
    [Effect.externalAction ("launch persistent browser context at " ++ sessionPath),
     Effect.externalAction "goto https://www.facebook.com"]
  if postBoxAppears then
    (FacebookResult.published,
      launchEffects ++
        [Effect.externalAction ("fill post box with: " ++ args.content),
         Effect.externalAction "click Post"])
  else
    (FacebookResult.errorPosting, launchEffects)

structure TwitterEnv where
  apiKey : Option String
  apiSecret : Option String
  accessToken : Option String
  accessSecret : Option String
deriving DecidableEq

/-- JS truthiness of an environment variable: set and non-empty. -/
def envTruthy : Option String → Bool
  | none => false
  | some s => !(s == "")

inductive TwitterResult
  | errorNoCredentials
  | manualInstructions (content : String)
deriving DecidableEq

/-- Lines 387-412: the `post_to_twitter` handler.  With any of the four
credentials falsy it returns the error result; with all four present it still
only returns a manual-posting instruction message (the API call is not
implemented).  In neither branch does it write to the vault or reach any
external service. -/
def post_to_twitter (env : TwitterEnv) (content : String) :
    TwitterResult × List Effect :=
  if !envTruthy env.apiKey || !envTruthy env.apiSecret
      || !envTruthy env.accessToken || !envTruthy env.accessSecret then
    (TwitterResult.errorNoCredentials, [])
  else
    (TwitterResult.manualInstructions content, [])

/-! ## Git-sync exclusion list (`cloud_deployment/setup_git_sync.sh`, lines 56-117)

The heredoc writes a `.gitignore` into the synced vault.  Its pattern lines,
in file order (comments and blank lines dropped, `!`-negations kept): -/

def gitignoreLines : List String :=
  [".env", "*.env", ".env.local", ".env.production",
   ".whatsapp_session/", "*.session",
   "*credentials*", "*secrets*", "*tokens*", "banking/", "payments/",
   "*.pem", "*.key", "id_*",
   ".local/", "*.local",
   "__pycache__/", "*.pyc", "*.pyo", "*.pyd", ".Python",
   "node_modules/",
   "*.log", "logs/*.log",
   ".DS_Store", "Thumbs.db",
   "*.tmp", "*.temp", "*.swp", "*.swo", "*~",
   "!AI_Employee_Vault/", "!AI_Employee_Vault/**/*.md", "!AI_Employee_Vault/**/*.json",
   "!Updates/", "!Signals/", "!Plans/", "!Needs_Action/", "!In_Progress/"]

/-- Glob match of a pattern against one path component, `*` matching any run of
characters.  Fuel-bounded so the kernel can evaluate it; every recursive step
shrinks `pattern.length + s.length`, so fuel `pattern.length + s.length + 1`
never runs out. -/
def globMatchAux : Nat → List Char → List Char → Bool
  | 0, _, _ => false
  | Nat.succ n, pat, s =>
    match pat, s with
    | [], [] => true
    | [], _ :: _ => false
    | '*' :: ps, [] => globMatchAux n ps []
    | '*' :: ps, c :: cs => globMatchAux n ps (c :: cs) || globMatchAux n ('*' :: ps) cs
    | _ :: _, [] => false
    | p :: ps, c :: cs => p == c && globMatchAux n ps cs

def globMatch (pat s : List Char) : Bool :=
  globMatchAux (pat.length + s.length + 1) pat s

/-- Segment-wise match of a slash-containing pattern against path components,
anchored at the vault root, with `**` matching any number of directories and a
fully-consumed pattern matching the remaining path (directory semantics). -/
def segsMatchAux : Nat → List (List Char) → List (List Char) → Bool
  | 0, _, _ => false
  | Nat.succ n, pats, comps =>
    match pats, comps with
    | [], _ => true
    | p :: ps, [] => p == ['*', '*'] && segsMatchAux n ps []
    | p :: ps, c :: cs =>
      if p == ['*', '*'] then
        segsMatchAux n ps (c :: cs) || segsMatchAux n (p :: ps) cs
      else
        globMatch p c && segsMatchAux n ps cs

def segsMatch (pats comps : List (List Char)) : Bool :=
  segsMatchAux (pats.length + comps.length + 1) pats comps

/-- Split a character list on a separator character. -/
def splitOnChar (sep : Char) : List Char → List (List Char)
  | [] => [[]]
  | c :: cs =>
    match splitOnChar sep cs with
    | [] => [[c]]
    | h :: t => if c == sep then [] :: h :: t else (c :: h) :: t

/-- Drop one trailing `/` from a pattern (a gitignore directory pattern). -/
def stripSlash (l : List Char) : List Char :=
  match l.getLast? with
  | some '/' => l.dropLast
  | _ => l

/-- Whether one gitignore pattern line (without any leading `!`) matches a path
given as components: a slash-free pattern matches any single component (and so
the whole subtree below a matched directory); a pattern containing `/` is
matched segment-wise from the root. -/
def lineMatches (line : List Char) (comps : List (List Char)) : Bool :=
  match splitOnChar '/' (stripSlash line) with
  | [single] => comps.any (fun c => globMatch single c)
  | pats => segsMatch pats comps

/-- Whether the `.gitignore` written by `setup_git_sync.sh` excludes `path`
(relative to the synced vault root): last matching pattern wins, `!` lines
re-include. -/
def gitignoreIgnores (path : String) : Bool :=
  let comps := splitOnChar '/' path.data
  gitignoreLines.foldl
    (fun acc line =>
      match line.data with
      | '!' :: rest => if lineMatches rest comps then false else acc
      | l => if lineMatches l comps then true else acc)
    false

/-! ## Approval state and the claim-by-move protocol -/

/-- Lifecycle status values occurring in the draft frontmatter and the spec's
approval state machine. -/
inductive ItemStatus
  | draft
  | pending_approval
  | approved
  | rejected
  | executed
deriving DecidableEq

/-- An approval-request item as produced by `draft_email`: its current status
plus the action parameters recorded in the draft. -/
structure ApprovalItem where
  status : ItemStatus
  toAddr : String
  subject : String
  body : String
deriving DecidableEq

inductive ClaimResult
  | owned
  | notFound
deriving DecidableEq

/-- The shared queue visible to the agents: the items in `/Needs_Action` and
the claimed items in `/In_Progress/<agent>/` (agent, item pairs).  A directory
holds at most one file per name, so removal is modelled by filtering the name
out. -/
structure ClaimState where
  needsAction : List String
  inProgress : List (String × String)
deriving DecidableEq

/-- Modelled from the spec: `vault_sync/claim_by_move.py` is not part of the
repository snapshot (only its documentation in the skill file and §4.2 of the
spec are).  A claim is one atomic rename of the item file out of
`/Needs_Action` into `/In_Progress/<agent>/`: it succeeds exactly when the
source file still exists, and the loser of a race observes that the source is
gone. -/
def claim (s : ClaimState) (agent item : String) : ClaimResult × ClaimState :=
  if s.needsAction.contains item then
    (ClaimResult.owned,
      { needsAction := s.needsAction.filter (fun y => !(y == item))
      , inProgress := (agent, item) :: s.inProgress })
  else
    (ClaimResult.notFound, s)

/-! ## Health Signal schema (skill file `unnamed/part_004`, lines 266-292)

The health status the Cloud Agent writes to `/Signals/health.json` every five
minutes, as documented in the skill file — embedded as its key sets. -/

def cloudHealthSignalKeys : List String :=
  ["timestamp", "agent", "status", "uptime_seconds", "system", "tasks", "sync"]

def cloudHealthSystemKeys : List String :=
  ["cpu_percent", "memory_percent", "disk_used_gb"]

def cloudHealthTasksKeys : List String :=
  ["drafts_awaiting_approval", "in_progress"]

def cloudHealthSyncKeys : List String :=
  ["last_sync", "git_status"]

/-- The schema asserted by the spec (§6, Health Signal schema), written down
from the spec's words for comparison with the source's schema. -/
def specHealthSignalKeys : List String :=
  ["timestamp", "agent", "status", "uptime_seconds", "tasks", "sync"]

/-- Spec §6: `tasks:{owned, pending_approval}`. -/
def specHealthTasksKeys : List String := ["owned", "pending_approval"]

/-- Spec §6: `sync:{last_sync, status}`. -/
def specHealthSyncKeys : List String := ["last_sync", "status"]

/-! ## Theorems for the claims -/

/-- Claim C1 (code bug): the execute operations perform no approval-state
check.  With credentials configured, `send_email` attempts the SMTP send for
the parameters of an item whose status is still `pending_approval` (it is not
rejected), and `post_to_facebook` opens the browser, fills the post box and
clicks Post for unapproved content, performing four external actions. -/
theorem send_and_post_ignore_approval_state :
    (ApprovalItem.mk ItemStatus.pending_approval
        "client@example.com" "Re: Invoice" "Draft reply body").status
      ≠ ItemStatus.approved
    ∧ isSendAttempt (send_email ⟨"smtp.gmail.com", 587, false, ⟨"me@gmail.com", "app-password"⟩⟩
        ⟨(ApprovalItem.mk ItemStatus.pending_approval
            "client@example.com" "Re: Invoice" "Draft reply body").toAddr,
          "Re: Invoice", "Draft reply body", false⟩) = true
    ∧ (post_to_facebook none ⟨"Unapproved post content", none, none⟩ true).1
        = FacebookResult.published
    ∧ (post_to_facebook none ⟨"Unapproved post content", none, none⟩ true).2.countP
        (fun e => isExternalAction e) = 4 := by
  decide

/-- Claim C2 (code bug): `draft_email` invoked without a `vaultPath` argument
(and with `APPROVAL_FOLDER` unset) writes the freshly created
`status: pending_approval` draft directly into the
`../AI_Employee_Vault/Approved` folder — the approved/ location. -/
theorem draft_email_default_folder_is_approved :
    (draft_email none ⟨"client@example.com", "Hello", "Greetings", none⟩
        "2026-02-25T10:30:00.000Z").draftPath
      = "../AI_Employee_Vault/Approved/EMAIL_DRAFT_2026-02-25T10-30-00-000Z.md"
    ∧ strLeads (draft_email none ⟨"client@example.com", "Hello", "Greetings", none⟩
        "2026-02-25T10:30:00.000Z").draftPath (APPROVAL_FOLDER none ++ "/") = true
    ∧ strOccurs (emailDraftContent ⟨"client@example.com", "Hello", "Greetings", none⟩
        "2026-02-25T10:30:00.000Z") "status: pending_approval" = true := by
  decide

/-- Claim C3 (code bug): the persistent browser-session directory lies inside
the sync-reconciled vault (`SESSIONS_PATH` is `VAULT_PATH/.social_sessions`),
and no pattern of the commit-time `.gitignore` exclusion list matches it — the
list does exclude `.env` or a `secrets.json`, but not `.social_sessions`. -/
theorem social_sessions_inside_synced_vault_not_excluded :
    strLeads (pathJoin (SESSIONS_PATH none) "facebook") (VAULT_PATH none ++ "/") = true
    ∧ gitignoreIgnores ".social_sessions" = false
    ∧ gitignoreIgnores ".social_sessions/facebook" = false
    ∧ gitignoreIgnores ".env" = true
    ∧ gitignoreIgnores "secrets.json" = true := by
  decide

/-- Claim C4 (confirmed, spec-modelled): for an item `x` present in
`Needs_Action` and two distinct agents, whichever claim-by-move executes first
succeeds and the claim executing second observes `NotFound`; in no
interleaving do both succeed. -/
theorem claim_mutual_exclusion (s : ClaimState) (x a b : String)
    (hx : x ∈ s.needsAction) (_hab : a ≠ b) :
    ((claim s a x).1 = ClaimResult.owned
      ∧ (claim (claim s a x).2 b x).1 = ClaimResult.notFound)
    ∧ ((claim s b x).1 = ClaimResult.owned
      ∧ (claim (claim s b x).2 a x).1 = ClaimResult.notFound) := by
  simp [claim, hx, List.mem_filter]

/-- Witness for `claim_mutual_exclusion` at a concrete state: one item
`EMAIL_abc.md` in `Needs_Action`, agents `cloud_agent` and `local_agent`. -/
theorem claim_mutual_exclusion_witness :
    ("EMAIL_abc.md" : String) ∈ (ClaimState.mk ["EMAIL_abc.md"] []).needsAction
    ∧ ("cloud_agent" : String) ≠ "local_agent"
    ∧ (((claim ⟨["EMAIL_abc.md"], []⟩ "cloud_agent" "EMAIL_abc.md").1 = ClaimResult.owned
        ∧ (claim (claim ⟨["EMAIL_abc.md"], []⟩ "cloud_agent" "EMAIL_abc.md").2
            "local_agent" "EMAIL_abc.md").1 = ClaimResult.notFound)
      ∧ ((claim ⟨["EMAIL_abc.md"], []⟩ "local_agent" "EMAIL_abc.md").1 = ClaimResult.owned
        ∧ (claim (claim ⟨["EMAIL_abc.md"], []⟩ "local_agent" "EMAIL_abc.md").2
            "cloud_agent" "EMAIL_abc.md").1 = ClaimResult.notFound)) :=
  ⟨by decide, by decide,
    claim_mutual_exclusion ⟨["EMAIL_abc.md"], []⟩ "EMAIL_abc.md"
      "cloud_agent" "local_agent" (by decide) (by decide)⟩

/-- Claim C5 (code bug): draft creation emits no Audit Record.  The complete
effect inventory of `create_facebook_post` is the single draft-file write; a
`draft_email` call performs exactly one vault write; and at the default
configuration neither handler writes anything under a `Logs` or `Audit`
location. -/
theorem draft_creation_emits_no_audit_record :
    (∀ (env : Option String) (args : CreateFacebookPostArgs) (now : String),
      (create_facebook_post env args now).effects
        = [Effect.writeFile (create_facebook_post env args now).draftPath
            (facebookDraftContent args now)])
    ∧ (∀ (env : Option String) (args : DraftEmailArgs) (now : String),
      (draft_email env args now).effects.countP (fun e => isVaultWrite e) = 1)
    ∧ (create_facebook_post none ⟨"Hello from the AI employee", none⟩
        "2026-02-25T10:30:00.000Z").effects.countP (fun e => isAuditWrite e) = 0
    ∧ (draft_email none ⟨"client@example.com", "Hello", "Greetings", none⟩
        "2026-02-25T10:30:00.000Z").effects.countP (fun e => isAuditWrite e) = 0 := by
  refine ⟨fun env args now => rfl, fun env args now => ?_, by decide, by decide⟩
  simp [draft_email, List.countP, List.countP.go, isVaultWrite]

/-- Claim C6 counterexample: with both `EMAIL_USER` and `EMAIL_PASS` absent
but a config file at `CONFIG_PATH` supplying credentials, `send_email` still
attempts the SMTP send — the gate is not on the environment variables. -/
theorem send_email_env_absent_config_file_sends :
    isSendAttempt (send_email
      (loadEmailConfig none none
        (some ⟨"smtp.example.com", 465, true, ⟨"file-user@example.com", "file-pass"⟩⟩))
      ⟨"a@b.example", "Hi", "Body", false⟩) = true := by
  decide

/-- Claim C6 (corrected): the presence check is on the effective credentials
`emailConfig.auth.user` / `emailConfig.auth.pass` — taken from the config file
when one loads, otherwise from `EMAIL_USER` / `EMAIL_PASS` — and for every
invocation the send is attempted exactly when both are non-empty, with the
not-configured error returned otherwise. -/
theorem send_email_effective_credential_gate (envUser envPass : Option String)
    (configFile : Option EmailConfig) (args : SendEmailArgs) :
    (isSendAttempt (send_email (loadEmailConfig envUser envPass configFile) args)
      = (!((loadEmailConfig envUser envPass configFile).auth.user == "")
          && !((loadEmailConfig envUser envPass configFile).auth.pass == "")))
    ∧ (send_email (loadEmailConfig envUser envPass configFile) args
        = SendEmailResult.errorNotConfigured
      ↔ ((loadEmailConfig envUser envPass configFile).auth.user = ""
          ∨ (loadEmailConfig envUser envPass configFile).auth.pass = "")) := by
  generalize loadEmailConfig envUser envPass configFile = cfg
  by_cases h1 : cfg.auth.user = "" <;> by_cases h2 : cfg.auth.pass = "" <;>
    simp [send_email, createTransporter, isSendAttempt, h1, h2]

/-- Claim C7 counterexample: the health signal documented in the skill file
does not carry the spec's key set — its `tasks` keys are
`drafts_awaiting_approval`/`in_progress` rather than `owned`/`pending_approval`,
its `sync` object uses `git_status` rather than `status`, and it has an extra
top-level `system` object. -/
theorem health_signal_schema_mismatch :
    cloudHealthTasksKeys ≠ specHealthTasksKeys
    ∧ ("owned" ∈ specHealthTasksKeys ∧ "owned" ∉ cloudHealthTasksKeys)
    ∧ ("system" ∈ cloudHealthSignalKeys ∧ "system" ∉ specHealthSignalKeys)
    ∧ ("git_status" ∈ cloudHealthSyncKeys ∧ "git_status" ∉ specHealthSyncKeys) := by
  decide

/-- Claim C7 (corrected): the emitted health signal has top-level keys
timestamp, agent, status, uptime_seconds, system, tasks, sync, with
`system:{cpu_percent, memory_percent, disk_used_gb}`,
`tasks:{drafts_awaiting_approval, in_progress}` and
`sync:{last_sync, git_status}`; the spec's top-level key list is exactly this
one with `system` removed. -/
theorem health_signal_schema_actual :
    cloudHealthSignalKeys
      = ["timestamp", "agent", "status", "uptime_seconds", "system", "tasks", "sync"]
    ∧ cloudHealthSystemKeys = ["cpu_percent", "memory_percent", "disk_used_gb"]
    ∧ cloudHealthTasksKeys = ["drafts_awaiting_approval", "in_progress"]
    ∧ cloudHealthSyncKeys = ["last_sync", "git_status"]
    ∧ specHealthSignalKeys = cloudHealthSignalKeys.filter (fun k => !(k == "system")) := by
  decide

/-- Claim C8 (confirmed): `post_to_twitter` performs no vault write and no
external action in any case, leaves any file store unchanged, and returns the
error result exactly when one of the four credential variables is falsy. -/
theorem post_to_twitter_never_posts (env : TwitterEnv) (content : String) (fs : FS) :
    (post_to_twitter env content).2 = []
    ∧ runEffects fs (post_to_twitter env content).2 = fs
    ∧ ((post_to_twitter env content).1 = TwitterResult.errorNoCredentials
        ↔ (!envTruthy env.apiKey || !envTruthy env.apiSecret
            || !envTruthy env.accessToken || !envTruthy env.accessSecret) = true) := by
  by_cases h : (!envTruthy env.apiKey || !envTruthy env.apiSecret
      || !envTruthy env.accessToken || !envTruthy env.accessSecret) = true <;>
    simp [post_to_twitter, h, runEffects]

/-- Claim C9 (confirmed): `create_tweet` stores the 280-character truncation of
the input, reports `min 280 length` (never above 280) as the character count,
and never rejects. -/
theorem create_tweet_truncates_to_280 (envVault : Option String)
    (args : CreateTweetArgs) (now : String) :
    (create_tweet envVault args now).storedTweet = args.content.take 280
    ∧ (create_tweet envVault args now).reportedCount = min 280 args.content.length
    ∧ (create_tweet envVault args now).reportedCount ≤ 280
    ∧ (create_tweet envVault args now).isError = false := by
  refine ⟨rfl, ?_, ?_, rfl⟩
  · simp [create_tweet]
  · simp [create_tweet]

/-- Claim C10 (confirmed): two `draft_email` invocations with the same
creation timestamp and the same `vaultPath` argument produce the same draft
path regardless of recipient, subject or body, and after running both the file
store holds the second draft's content at that path — the second write
overwrote the first. -/
theorem draft_email_filename_collision_overwrites (env vp : Option String)
    (t1 s1 b1 t2 s2 b2 now : String) (fs : FS) :
    (draft_email env ⟨t1, s1, b1, vp⟩ now).draftPath
      = (draft_email env ⟨t2, s2, b2, vp⟩ now).draftPath
    ∧ fsRead
        (runEffects (runEffects fs (draft_email env ⟨t1, s1, b1, vp⟩ now).effects)
          (draft_email env ⟨t2, s2, b2, vp⟩ now).effects)
        (draft_email env ⟨t1, s1, b1, vp⟩ now).draftPath
      = some (emailDraftContent ⟨t2, s2, b2, vp⟩ now) := by
  refine ⟨rfl, ?_⟩
  simp [draft_email, runEffects, applyEffect, fsWrite, fsRead]

end AIEmployee
